import Mathlib

/-!
Verification of the subdivision-surface descriptor core declared in
`source/blender/blenkernel/BKE_subdiv.hh`.

The data model (enums `VtxBoundaryInterpolation`, `FVarLinearInterpolation`,
`StatsValue`, and the structs `Settings`, `SubdivStats`, `Subdiv`) is embedded
from the header.  The function bodies (`subdiv.cc`, `intern/subdiv_inline.hh`)
are not among the provided sources — only their declarations and doc comments
in `BKE_subdiv.hh` are — so each operation is modelled from the specification,
as indicated by its doc comment.  C `double`/`float` values are modelled as
real/rational numbers, timestamps are passed explicitly, and pointers that may
be null are modelled with `Option`.
-/

namespace BKESubdiv

/-- Embeds `enum VtxBoundaryInterpolation` from `BKE_subdiv.hh`. -/
inductive VtxBoundaryInterpolation where
  | SUBDIV_VTX_BOUNDARY_NONE
  | SUBDIV_VTX_BOUNDARY_EDGE_ONLY
  | SUBDIV_VTX_BOUNDARY_EDGE_AND_CORNER
deriving DecidableEq, Repr

/-- Embeds `enum FVarLinearInterpolation` from `BKE_subdiv.hh`. -/
inductive FVarLinearInterpolation where
  | SUBDIV_FVAR_LINEAR_INTERPOLATION_NONE
  | SUBDIV_FVAR_LINEAR_INTERPOLATION_CORNERS_ONLY
  | SUBDIV_FVAR_LINEAR_INTERPOLATION_CORNERS_AND_JUNCTIONS
  | SUBDIV_FVAR_LINEAR_INTERPOLATION_CORNERS_JUNCTIONS_AND_CONCAVE
  | SUBDIV_FVAR_LINEAR_INTERPOLATION_BOUNDARIES
  | SUBDIV_FVAR_LINEAR_INTERPOLATION_ALL
deriving DecidableEq, Repr

/-- Embeds `struct Settings` from `BKE_subdiv.hh`: the configuration bundle
(scheme, adaptive/uniform, isolation level, crease use, boundary rules). -/
structure Settings where
  is_simple : Bool
  is_adaptive : Bool
  level : Int
  use_creases : Bool
  vtx_boundary_interpolation : VtxBoundaryInterpolation
  fvar_linear_interpolation : FVarLinearInterpolation
deriving DecidableEq, Repr

/-- Embeds `enum StatsValue` from `BKE_subdiv.hh` (the eight phase
enumerators; `NUM_SUBDIV_STATS_VALUES` is modelled separately below). -/
inductive StatsValue where
  | SUBDIV_STATS_TOPOLOGY_REFINER_CREATION_TIME
  | SUBDIV_STATS_SUBDIV_TO_MESH
  | SUBDIV_STATS_SUBDIV_TO_MESH_GEOMETRY
  | SUBDIV_STATS_EVALUATOR_CREATE
  | SUBDIV_STATS_EVALUATOR_REFINE
  | SUBDIV_STATS_SUBDIV_TO_CCG
  | SUBDIV_STATS_SUBDIV_TO_CCG_ELEMENTS
  | SUBDIV_STATS_TOPOLOGY_COMPARE
deriving DecidableEq, Repr

/-- `NUM_SUBDIV_STATS_VALUES` of `BKE_subdiv.hh`: the number of phases. -/
abbrev NUM_SUBDIV_STATS_VALUES : Nat := 8

/-- The numeric value of each `StatsValue` enumerator, as assigned in
`BKE_subdiv.hh` (first enumerator `= 0`, the rest successive). -/
def statsValueIndex : StatsValue → Fin NUM_SUBDIV_STATS_VALUES
  | .SUBDIV_STATS_TOPOLOGY_REFINER_CREATION_TIME => 0
  | .SUBDIV_STATS_SUBDIV_TO_MESH => 1
  | .SUBDIV_STATS_SUBDIV_TO_MESH_GEOMETRY => 2
  | .SUBDIV_STATS_EVALUATOR_CREATE => 3
  | .SUBDIV_STATS_EVALUATOR_REFINE => 4
  | .SUBDIV_STATS_SUBDIV_TO_CCG => 5
  | .SUBDIV_STATS_SUBDIV_TO_CCG_ELEMENTS => 6
  | .SUBDIV_STATS_TOPOLOGY_COMPARE => 7

/-- Embeds `struct SubdivStats` from `BKE_subdiv.hh`.  The eight named
`double` accumulators are kept as named fields in their declaration order;
the union's array view `values_` is modelled as the function
`SubdivStats.values_` below, and the `begin_timestamp_` array as a function
on phase indices. -/
structure SubdivStats where
  topology_refiner_creation_time : ℝ
  subdiv_to_mesh_time : ℝ
  subdiv_to_mesh_geometry_time : ℝ
  evaluator_creation_time : ℝ
  evaluator_refine_time : ℝ
  subdiv_to_ccg_time : ℝ
  subdiv_to_ccg_elements_time : ℝ
  topology_compare_time : ℝ
  begin_timestamp_ : Fin NUM_SUBDIV_STATS_VALUES → ℝ

/-- The union's array view: `values_[i]` aliases the `i`-th named accumulator
field of `SubdivStats` in declaration order (the C union overlays
`double values_[NUM_SUBDIV_STATS_VALUES]` on the struct of named fields). -/
def SubdivStats.values_ (s : SubdivStats) : Fin NUM_SUBDIV_STATS_VALUES → ℝ
  | 0 => s.topology_refiner_creation_time
  | 1 => s.subdiv_to_mesh_time
  | 2 => s.subdiv_to_mesh_geometry_time
  | 3 => s.evaluator_creation_time
  | 4 => s.evaluator_refine_time
  | 5 => s.subdiv_to_ccg_time
  | 6 => s.subdiv_to_ccg_elements_time
  | 7 => s.topology_compare_time

/-- Writing through the union's array view: `values_[i] = x` stores into the
`i`-th named accumulator field in declaration order. -/
def SubdivStats.setValue (s : SubdivStats) (i : Fin NUM_SUBDIV_STATS_VALUES) (x : ℝ) :
    SubdivStats :=
  match i with
  | 0 => { s with topology_refiner_creation_time := x }
  | 1 => { s with subdiv_to_mesh_time := x }
  | 2 => { s with subdiv_to_mesh_geometry_time := x }
  | 3 => { s with evaluator_creation_time := x }
  | 4 => { s with evaluator_refine_time := x }
  | 5 => { s with subdiv_to_ccg_time := x }
  | 6 => { s with subdiv_to_ccg_elements_time := x }
  | 7 => { s with topology_compare_time := x }

/-- Access of the named accumulator field that corresponds, by name and by the
header's per-field comments, to a given phase enumerator
(e.g. `SUBDIV_STATS_EVALUATOR_CREATE` names `evaluator_creation_time`). -/
def SubdivStats.namedField (s : SubdivStats) : StatsValue → ℝ
  | .SUBDIV_STATS_TOPOLOGY_REFINER_CREATION_TIME => s.topology_refiner_creation_time
  | .SUBDIV_STATS_SUBDIV_TO_MESH => s.subdiv_to_mesh_time
  | .SUBDIV_STATS_SUBDIV_TO_MESH_GEOMETRY => s.subdiv_to_mesh_geometry_time
  | .SUBDIV_STATS_EVALUATOR_CREATE => s.evaluator_creation_time
  | .SUBDIV_STATS_EVALUATOR_REFINE => s.evaluator_refine_time
  | .SUBDIV_STATS_SUBDIV_TO_CCG => s.subdiv_to_ccg_time
  | .SUBDIV_STATS_SUBDIV_TO_CCG_ELEMENTS => s.subdiv_to_ccg_elements_time
  | .SUBDIV_STATS_TOPOLOGY_COMPARE => s.topology_compare_time

/-- Update of the named accumulator field that corresponds to a given phase
enumerator, leaving every other field alone. -/
def SubdivStats.setNamedField (s : SubdivStats) (v : StatsValue) (x : ℝ) : SubdivStats :=
  match v with
  | .SUBDIV_STATS_TOPOLOGY_REFINER_CREATION_TIME => { s with topology_refiner_creation_time := x }
  | .SUBDIV_STATS_SUBDIV_TO_MESH => { s with subdiv_to_mesh_time := x }
  | .SUBDIV_STATS_SUBDIV_TO_MESH_GEOMETRY => { s with subdiv_to_mesh_geometry_time := x }
  | .SUBDIV_STATS_EVALUATOR_CREATE => { s with evaluator_creation_time := x }
  | .SUBDIV_STATS_EVALUATOR_REFINE => { s with evaluator_refine_time := x }
  | .SUBDIV_STATS_SUBDIV_TO_CCG => { s with subdiv_to_ccg_time := x }
  | .SUBDIV_STATS_SUBDIV_TO_CCG_ELEMENTS => { s with subdiv_to_ccg_elements_time := x }
  | .SUBDIV_STATS_TOPOLOGY_COMPARE => { s with topology_compare_time := x }

/-- Read a phase accumulator through the array view at the phase's enum index,
as `stats->values_[value]` does in the C code. -/
def SubdivStats.getStat (s : SubdivStats) (v : StatsValue) : ℝ :=
  s.values_ (statsValueIndex v)

/-- Modelled from the spec: `stats_init` (body not among the provided
sources) — all accumulators start at zero. -/
def stats_init : SubdivStats where
  topology_refiner_creation_time := 0
  subdiv_to_mesh_time := 0
  subdiv_to_mesh_geometry_time := 0
  evaluator_creation_time := 0
  evaluator_refine_time := 0
  subdiv_to_ccg_time := 0
  subdiv_to_ccg_elements_time := 0
  topology_compare_time := 0
  begin_timestamp_ := fun _ => 0

/-- Modelled from the spec §4.4: `stats_begin(stats, value)` (body not among
the provided sources) records the current time into the phase's start slot.
The current time `now` is passed explicitly. -/
def stats_begin (s : SubdivStats) (v : StatsValue) (now : ℝ) : SubdivStats :=
  { s with begin_timestamp_ :=
      Function.update s.begin_timestamp_ (statsValueIndex v) now }

/-- Modelled from the spec §4.4: `stats_end(stats, value)` (body not among the
provided sources) computes `elapsed = now − start` and adds it to the phase's
accumulator, through the union's array view at the phase's enum index. -/
def stats_end (s : SubdivStats) (v : StatsValue) (now : ℝ) : SubdivStats :=
  s.setValue (statsValueIndex v)
    (s.values_ (statsValueIndex v) + (now - s.begin_timestamp_ (statsValueIndex v)))

/-- Modelled from the spec §4.4: `stats_reset(stats, value)` (body not among
the provided sources) zeroes one accumulator without touching others. -/
def stats_reset (s : SubdivStats) (v : StatsValue) : SubdivStats :=
  s.setValue (statsValueIndex v) 0

/-- Modelled from the spec §4.2: `settings_equal(a, b)` (body not among the
provided sources) — exact field-wise comparison of the two `Settings`. -/
def settings_equal (a b : Settings) : Bool :=
  a.is_simple = b.is_simple ∧ a.is_adaptive = b.is_adaptive ∧ a.level = b.level ∧
    a.use_creases = b.use_creases ∧
    a.vtx_boundary_interpolation = b.vtx_boundary_interpolation ∧
    a.fvar_linear_interpolation = b.fvar_linear_interpolation

/-!
Ptex/grid coordinate mapping and crease conversion (`BKE_subdiv.hh` lines
268–306).  The inline bodies are not among the provided sources; the maps are
modelled from the spec §4.5.  Coordinates are modelled as rationals (exact
affine arithmetic); the crease/sharpness pair, whose inverse needs a square
root, is modelled over the reals.
-/

/-- Modelled from the spec §4.5: `ptex_face_uv_to_grid_uv` (body not among
the provided sources) — the simple affine remap taking a ptex-face parametric
coordinate to the corresponding grid coordinate (the swap-and-flip convention:
`grid_u = 1 − ptex_v`, `grid_v = 1 − ptex_u`). -/
def ptex_face_uv_to_grid_uv (ptex_u ptex_v : ℚ) : ℚ × ℚ :=
  (1 - ptex_v, 1 - ptex_u)

/-- Modelled from the spec §4.5: `grid_uv_to_ptex_face_uv` (body not among
the provided sources) — the inverse affine remap of
`ptex_face_uv_to_grid_uv`: `ptex_u = 1 − grid_v`, `ptex_v = 1 − grid_u`. -/
def grid_uv_to_ptex_face_uv (grid_u grid_v : ℚ) : ℚ × ℚ :=
  (1 - grid_v, 1 - grid_u)

/-- Modelled from the spec §4.5: `grid_size_from_level` (body not among the
provided sources) — returns `2^level + 1`, the CCG grid side length in sample
points for a subdivision level. -/
def grid_size_from_level (level : ℕ) : ℕ :=
  2 ^ level + 1

/-- Modelled from the spec §4.5 and the declaration in `BKE_subdiv.hh`:
`rotate_quad_to_corner` (body not among the provided sources).  Per its
declaration it takes only the quad-global ptex coordinate, returns the corner
index (`int` return value), and writes the coordinate as seen in that
corner's local ptex frame; the header comment names it a simplified,
quad-only, normalized version of `mdisp_rot_face_to_crn`, which classifies
the quadrant of the coordinate and rescales it into the corner's frame. -/
def rotate_quad_to_corner (quad_u quad_v : ℚ) : ℕ × ℚ × ℚ :=
  if quad_u ≤ 1/2 ∧ quad_v ≤ 1/2 then
    (0, 2 * quad_u, 2 * quad_v)
  else if 1/2 < quad_u ∧ quad_v ≤ 1/2 then
    (1, 2 * quad_v, 2 * (1 - quad_u))
  else if 1/2 < quad_u ∧ 1/2 < quad_v then
    (2, 2 * (1 - quad_u), 2 * (1 - quad_v))
  else
    (3, 2 * (1 - quad_v), 2 * quad_u)

/-- The per-corner inverse of the corner-local frames used by
`rotate_quad_to_corner`: maps a corner-local coordinate back into the quad's
shared parametric space. -/
def rotate_corner_to_quad (corner : ℕ) (corner_u corner_v : ℚ) : ℚ × ℚ :=
  if corner = 0 then (corner_u / 2, corner_v / 2)
  else if corner = 1 then (1 - corner_v / 2, corner_u / 2)
  else if corner = 2 then (1 - corner_u / 2, 1 - corner_v / 2)
  else (corner_v / 2, 1 - corner_u / 2)

/-- Modelled from the spec §4.5: `crease_to_sharpness` (body not among the
provided sources) — monotonically maps the normalized crease `[0,1]` onto the
refiner's sharpness scale `[0,10]`, quadratically, with crease 1 landing on
the refiner's infinite-sharpness saturation value 10. -/
def crease_to_sharpness (crease : ℝ) : ℝ :=
  crease * crease * 10

/-- Modelled from the spec §4.5: `sharpness_to_crease` (body not among the
provided sources) — the inverse mapping, `√(sharpness / 10)`. -/
noncomputable def sharpness_to_crease (sharpness : ℝ) : ℝ :=
  Real.sqrt (sharpness / 10)

/-!
Topology sources, refiner, and the `Subdiv` descriptor (`BKE_subdiv.hh` lines
151–266).  Of the construction/update/teardown path only the declarations and
their comments are among the provided sources; the behaviour is modelled from
the spec (§3, §4.1, §4.3, §7).  A topology source is reduced to what the
descriptor logic observes: the per-base-face corner counts and whether the
topology is manifold/supported for the chosen scheme.
-/

/-- Modelled from the spec §6: the abstract converter capability
`OpenSubdiv_Converter`, reduced to what refiner construction observes — the
per-base-face corner counts, and whether the described topology is manifold
and supported by the chosen scheme (the "invalid topology" condition of §7
surfaced by refiner construction). -/
structure OpenSubdiv_Converter where
  faces : List ℕ
  valid_topology : Bool

/-- Modelled from the spec §6: the read-only topology view of a `Mesh`
consumed by `new_from_mesh`/`update_from_mesh`, reduced in the same way as
`OpenSubdiv_Converter`. -/
structure Mesh where
  faces : List ℕ
  valid_topology : Bool

/-- Modelled from the spec §4.1: the mesh's topology as presented through the
converter interface (per-face corner counts and validity pass through). -/
def converter_from_mesh (mesh : Mesh) : OpenSubdiv_Converter where
  faces := mesh.faces
  valid_topology := mesh.valid_topology

/-- Modelled from the spec §3/§4.1: `blender::opensubdiv::TopologyRefinerImpl`
as observed by the descriptor — the converted topology retained in the
refiner's internal form. -/
structure TopologyRefinerImpl where
  faces : List ℕ

/-- Glossary: number of ptex faces created for one base face with `n`
corners — one ptex face for a quad, `n` ptex faces for an `n`-gon. -/
def num_ptex_faces_of_face (n : ℕ) : ℕ :=
  if n = 4 then 1 else n

/-- Embeds `struct Subdiv` from `BKE_subdiv.hh`: settings, owned topology
refiner, optional CPU evaluator (an abstract handle), optional displacement
evaluator (an abstract handle), stats, and the lazily-computed
`cache_.face_ptex_offset` array (`Option` models the unset/null state). -/
structure Subdiv where
  settings : Settings
  topology_refiner : TopologyRefinerImpl
  evaluator : Option ℕ
  displacement_evaluator : Option ℕ
  stats : SubdivStats
  cache_face_ptex_offset : Option (List ℕ)

/-- Modelled from the spec §4.1/§4.3: `new_from_converter` (body not among
the provided sources) — builds the refiner from the converter's topology,
timed under `SUBDIV_STATS_TOPOLOGY_REFINER_CREATION_TIME`; on invalid
topology the refiner is not created and the factory returns null (`none`).
The evaluator is not built yet and the ptex-offset cache starts unset.  The
begin/end timestamps of the refiner-creation phase are passed explicitly. -/
def new_from_converter (settings : Settings) (converter : OpenSubdiv_Converter)
    (t0 t1 : ℝ) : Option Subdiv :=
  if converter.valid_topology then
    some
      { settings := settings
        topology_refiner := { faces := converter.faces }
        evaluator := none
        displacement_evaluator := none
        stats := stats_end (stats_begin stats_init
          .SUBDIV_STATS_TOPOLOGY_REFINER_CREATION_TIME t0)
          .SUBDIV_STATS_TOPOLOGY_REFINER_CREATION_TIME t1
        cache_face_ptex_offset := none }
  else
    none

/-- Modelled from the spec §4.3: `new_from_mesh` (body not among the provided
sources) — behaves as `new_from_converter` on the mesh's topology view. -/
def new_from_mesh (settings : Settings) (mesh : Mesh) (t0 t1 : ℝ) : Option Subdiv :=
  new_from_converter settings (converter_from_mesh mesh) t0 t1

/-- Modelled from the spec §4.3/§9: the topology comparison used by the
update path — a deterministic structural comparison of the refiner's retained
topology against the new source's topology. -/
def topology_matches (refiner : TopologyRefinerImpl) (converter : OpenSubdiv_Converter) :
    Bool :=
  refiner.faces = converter.faces

/-- Modelled from the spec §4.3: `update_from_converter` (body not among the
provided sources) — with a null existing descriptor behaves as
`new_from_converter`; otherwise compares settings via `settings_equal` and,
when they are equal, compares topology timed under
`SUBDIV_STATS_TOPOLOGY_COMPARE`; if both match the existing descriptor is
returned unchanged (only the topology-compare phase accumulates), otherwise
the existing refiner/evaluator are freed and the descriptor is rebuilt from
scratch.  `tc0 tc1` are the topology-compare timestamps, `tn0 tn1` the
refiner-creation timestamps of a rebuild. -/
def update_from_converter (subdiv : Option Subdiv) (settings : Settings)
    (converter : OpenSubdiv_Converter) (tc0 tc1 tn0 tn1 : ℝ) : Option Subdiv :=
  match subdiv with
  | none => new_from_converter settings converter tn0 tn1
  | some s =>
    if settings_equal s.settings settings then
      let stats1 := stats_end (stats_begin s.stats .SUBDIV_STATS_TOPOLOGY_COMPARE tc0)
        .SUBDIV_STATS_TOPOLOGY_COMPARE tc1
      if topology_matches s.topology_refiner converter then
        some { s with stats := stats1 }
      else
        new_from_converter settings converter tn0 tn1
    else
      new_from_converter settings converter tn0 tn1

/-- Modelled from the spec §4.3: `update_from_mesh` (body not among the
provided sources) — the update path on the mesh's topology view. -/
def update_from_mesh (subdiv : Option Subdiv) (settings : Settings) (mesh : Mesh)
    (tc0 tc1 tn0 tn1 : ℝ) : Option Subdiv :=
  update_from_converter subdiv settings (converter_from_mesh mesh) tc0 tc1 tn0 tn1

/-- The running cumulative sum of per-base-face ptex-face counts, starting
from `acc`: element `i` is `acc` plus the total ptex faces of the faces
before `i`, and the final total is appended at the end. -/
def face_ptex_offset_from (acc : ℕ) : List ℕ → List ℕ
  | [] => [acc]
  | n :: rest => acc :: face_ptex_offset_from (acc + num_ptex_faces_of_face n) rest

/-- Modelled from the spec §6/`BKE_subdiv.hh` lines 172–186: the cached
per-base-face ptex offset array — for each base face the total number of ptex
faces of the preceding base faces, with the overall total appended, so the
array has length `base face count + 1`. -/
def face_ptex_offset_of_faces (faces : List ℕ) : List ℕ :=
  face_ptex_offset_from 0 faces

/-- Modelled from the spec §4.3: `face_ptex_offset_get` (body not among the
provided sources) — returns the cached array if present, otherwise computes
it from the refiner's topology and caches it. -/
def face_ptex_offset_get (s : Subdiv) : List ℕ × Subdiv :=
  match s.cache_face_ptex_offset with
  | some offsets => (offsets, s)
  | none =>
    let offsets := face_ptex_offset_of_faces s.topology_refiner.faces
    (offsets, { s with cache_face_ptex_offset := some offsets })

/-- A concrete `Settings` value used by the concrete witnesses below. -/
def sampleSettings : Settings where
  is_simple := false
  is_adaptive := false
  level := 2
  use_creases := false
  vtx_boundary_interpolation := .SUBDIV_VTX_BOUNDARY_EDGE_ONLY
  fvar_linear_interpolation := .SUBDIV_FVAR_LINEAR_INTERPOLATION_ALL

/-- A concrete valid mesh (a quad, a triangle, and a pentagon) used by the
concrete witnesses below. -/
def sampleMesh : Mesh where
  faces := [4, 3, 5]
  valid_topology := true

/-- A concrete existing descriptor for `sampleMesh` (with an evaluator
already built) used by the concrete witnesses below. -/
def sampleSubdiv : Subdiv where
  settings := sampleSettings
  topology_refiner := { faces := [4, 3, 5] }
  evaluator := some 7
  displacement_evaluator := none
  stats := stats_init
  cache_face_ptex_offset := none

/-- The descriptor that `new_from_mesh sampleSettings sampleMesh 0 1`
builds (refiner creation timed from 0 to 1). -/
def builtSampleSubdiv : Subdiv where
  settings := sampleSettings
  topology_refiner := { faces := [4, 3, 5] }
  evaluator := none
  displacement_evaluator := none
  stats := stats_end (stats_begin stats_init
    .SUBDIV_STATS_TOPOLOGY_REFINER_CREATION_TIME 0)
    .SUBDIV_STATS_TOPOLOGY_REFINER_CREATION_TIME 1
  cache_face_ptex_offset := none

/-! Helper lemmas about the stats collector. -/

lemma statsValueIndex_injective : Function.Injective statsValueIndex := by
  intro v w h
  cases v <;> cases w <;> first | rfl | exact absurd h (by decide)

lemma getStat_setValue_self (s : SubdivStats) (v : StatsValue) (x : ℝ) :
    (s.setValue (statsValueIndex v) x).getStat v = x := by
  cases v <;> rfl

lemma getStat_setValue_other (s : SubdivStats) (v w : StatsValue) (x : ℝ) (h : w ≠ v) :
    (s.setValue (statsValueIndex v) x).getStat w = s.getStat w := by
  cases v <;> cases w <;> first | rfl | exact absurd rfl h

lemma getStat_stats_begin (s : SubdivStats) (v w : StatsValue) (t : ℝ) :
    (stats_begin s v t).getStat w = s.getStat w := by
  cases w <;> rfl

lemma begin_timestamp_stats_begin_self (s : SubdivStats) (v : StatsValue) (t : ℝ) :
    (stats_begin s v t).begin_timestamp_ (statsValueIndex v) = t := by
  simp [stats_begin]

lemma begin_timestamp_stats_begin_other (s : SubdivStats) (v w : StatsValue) (t : ℝ)
    (h : w ≠ v) :
    (stats_begin s v t).begin_timestamp_ (statsValueIndex w) =
      s.begin_timestamp_ (statsValueIndex w) := by
  simp only [stats_begin]
  exact Function.update_noteq (fun hc => h (statsValueIndex_injective hc)) _ _

lemma begin_timestamp_setValue (s : SubdivStats) (i : Fin NUM_SUBDIV_STATS_VALUES) (x : ℝ) :
    (s.setValue i x).begin_timestamp_ = s.begin_timestamp_ := by
  fin_cases i <;> rfl

lemma begin_timestamp_stats_end (s : SubdivStats) (v : StatsValue) (t : ℝ) :
    (stats_end s v t).begin_timestamp_ = s.begin_timestamp_ :=
  begin_timestamp_setValue ..

lemma getStat_stats_end_self (s : SubdivStats) (v : StatsValue) (t : ℝ) :
    (stats_end s v t).getStat v =
      s.getStat v + (t - s.begin_timestamp_ (statsValueIndex v)) :=
  getStat_setValue_self ..

lemma getStat_stats_end_other (s : SubdivStats) (v w : StatsValue) (t : ℝ) (h : w ≠ v) :
    (stats_end s v t).getStat w = s.getStat w :=
  getStat_setValue_other _ _ _ _ h

lemma getStat_stats_reset_self (s : SubdivStats) (v : StatsValue) :
    (stats_reset s v).getStat v = 0 :=
  getStat_setValue_self ..

lemma getStat_stats_reset_other (s : SubdivStats) (v w : StatsValue) (h : w ≠ v) :
    (stats_reset s v).getStat w = s.getStat w :=
  getStat_setValue_other _ _ _ _ h

/-! Claim theorems. -/

/-- C3: for every subdivision level `l` from 0 to 10, `grid_size_from_level l`
returns `2^l + 1`, the grid side length in sample points. -/
theorem grid_size_from_level_formula :
    ∀ l : Fin 11, grid_size_from_level (l : ℕ) = 2 ^ (l : ℕ) + 1 := by
  decide

/-- C8: `settings_equal a b` returns true iff all fields of `a` and `b`
compare equal (exact comparison of the integer/bool/enum fields; there are no
floating-point fields), which is exactly equality of the two `Settings`
values. -/
theorem settings_equal_iff_all_fields (a b : Settings) :
    (settings_equal a b = true ↔
      (a.is_simple = b.is_simple ∧ a.is_adaptive = b.is_adaptive ∧ a.level = b.level ∧
        a.use_creases = b.use_creases ∧
        a.vtx_boundary_interpolation = b.vtx_boundary_interpolation ∧
        a.fvar_linear_interpolation = b.fvar_linear_interpolation))
    ∧ (settings_equal a b = true ↔ a = b) := by
  constructor
  · simp [settings_equal]
  · cases a
    cases b
    simp [settings_equal]

/-- C10: for every phase enumerator `v`, the named accumulator field declared
at position `statsValueIndex v` inside `SubdivStats` denotes the same storage
as `values_[statsValueIndex v]`: the enumerator order matches the named-field
declaration order, so named access and array-indexed access are
interchangeable for reads (`values_` agrees with `namedField`) and writes
(`setValue` agrees with `setNamedField`). -/
theorem stats_enum_order_matches_named_fields (s : SubdivStats) (v : StatsValue) (x : ℝ) :
    s.values_ (statsValueIndex v) = s.namedField v
    ∧ s.setValue (statsValueIndex v) x = s.setNamedField v x := by
  cases v <;> exact ⟨rfl, rfl⟩

/-- C7: for distinct phases `A` and `B`, the interleaved sequence
`stats_begin A; stats_begin B; stats_end B; stats_end A` accumulates each
phase's elapsed time independently (phase `A` gains `t4 − t1`, phase `B`
gains `t3 − t2`, every other phase is unchanged), and `stats_reset A` zeroes
only phase `A`'s accumulator, leaving all other phases unchanged. -/
theorem stats_phase_isolation (A B : StatsValue) (hAB : A ≠ B) (s : SubdivStats)
    (t1 t2 t3 t4 : ℝ) :
    ((stats_end (stats_end (stats_begin (stats_begin s A t1) B t2) B t3) A t4).getStat A =
        s.getStat A + (t4 - t1)
      ∧ (stats_end (stats_end (stats_begin (stats_begin s A t1) B t2) B t3) A t4).getStat B =
        s.getStat B + (t3 - t2)
      ∧ ∀ C, C ≠ A → C ≠ B →
        (stats_end (stats_end (stats_begin (stats_begin s A t1) B t2) B t3) A t4).getStat C =
          s.getStat C)
    ∧ ((stats_reset s A).getStat A = 0
      ∧ ∀ C, C ≠ A → (stats_reset s A).getStat C = s.getStat C) := by
  have hBA : B ≠ A := fun h => hAB h.symm
  refine ⟨⟨?_, ?_, ?_⟩, getStat_stats_reset_self s A, fun C hCA => getStat_stats_reset_other s A C hCA⟩
  · rw [getStat_stats_end_self, getStat_stats_end_other _ _ _ _ hAB,
      getStat_stats_begin, getStat_stats_begin, begin_timestamp_stats_end,
      begin_timestamp_stats_begin_other _ _ _ _ hAB, begin_timestamp_stats_begin_self]
  · rw [getStat_stats_end_other _ _ _ _ hBA, getStat_stats_end_self,
      getStat_stats_begin, getStat_stats_begin,
      begin_timestamp_stats_begin_self]
  · intro C hCA hCB
    rw [getStat_stats_end_other _ _ _ _ hCA, getStat_stats_end_other _ _ _ _ hCB,
      getStat_stats_begin, getStat_stats_begin]

/-- Witness for C7: concrete run with `A` the refiner-creation phase, `B` the
subdiv-to-mesh phase, timestamps 1, 2, 3, 4, on freshly initialized stats. -/
theorem stats_phase_isolation_witness :
    (stats_end (stats_end (stats_begin (stats_begin stats_init
          .SUBDIV_STATS_TOPOLOGY_REFINER_CREATION_TIME 1)
          .SUBDIV_STATS_SUBDIV_TO_MESH 2)
          .SUBDIV_STATS_SUBDIV_TO_MESH 3)
          .SUBDIV_STATS_TOPOLOGY_REFINER_CREATION_TIME 4).getStat
        .SUBDIV_STATS_TOPOLOGY_REFINER_CREATION_TIME =
      stats_init.getStat .SUBDIV_STATS_TOPOLOGY_REFINER_CREATION_TIME + (4 - 1)
    ∧ (stats_reset stats_init .SUBDIV_STATS_TOPOLOGY_REFINER_CREATION_TIME).getStat
        .SUBDIV_STATS_EVALUATOR_CREATE =
      stats_init.getStat .SUBDIV_STATS_EVALUATOR_CREATE :=
  ⟨(stats_phase_isolation .SUBDIV_STATS_TOPOLOGY_REFINER_CREATION_TIME
      .SUBDIV_STATS_SUBDIV_TO_MESH (by decide) stats_init 1 2 3 4).1.1,
    (stats_phase_isolation .SUBDIV_STATS_TOPOLOGY_REFINER_CREATION_TIME
      .SUBDIV_STATS_SUBDIV_TO_MESH (by decide) stats_init 1 2 3 4).2.2
      .SUBDIV_STATS_EVALUATOR_CREATE (by decide)⟩

/-- C4: `ptex_face_uv_to_grid_uv` and `grid_uv_to_ptex_face_uv` are affine
remaps that are exact inverses of each other (in both composition orders, on
all inputs), so for every `(u, v) ∈ [0,1]²` the round trip returns `(u, v)`
exactly, in particular within the 1e-6 floating tolerance. -/
theorem ptex_grid_uv_round_trip (u v : ℚ)
    (hu0 : 0 ≤ u) (hu1 : u ≤ 1) (hv0 : 0 ≤ v) (hv1 : v ≤ 1) :
    grid_uv_to_ptex_face_uv (ptex_face_uv_to_grid_uv u v).1 (ptex_face_uv_to_grid_uv u v).2 =
        (u, v)
    ∧ |(grid_uv_to_ptex_face_uv (ptex_face_uv_to_grid_uv u v).1
          (ptex_face_uv_to_grid_uv u v).2).1 - u| ≤ 1 / 1000000
    ∧ |(grid_uv_to_ptex_face_uv (ptex_face_uv_to_grid_uv u v).1
          (ptex_face_uv_to_grid_uv u v).2).2 - v| ≤ 1 / 1000000
    ∧ (∀ a b : ℚ,
        grid_uv_to_ptex_face_uv (ptex_face_uv_to_grid_uv a b).1
            (ptex_face_uv_to_grid_uv a b).2 = (a, b)
        ∧ ptex_face_uv_to_grid_uv (grid_uv_to_ptex_face_uv a b).1
            (grid_uv_to_ptex_face_uv a b).2 = (a, b)) := by
  refine ⟨?_, ?_, ?_, fun a b => ⟨?_, ?_⟩⟩ <;>
    simp [ptex_face_uv_to_grid_uv, grid_uv_to_ptex_face_uv]

/-- Witness for C4: the round trip at `(u, v) = (1/3, 2/7)`. -/
theorem ptex_grid_uv_round_trip_witness :
    grid_uv_to_ptex_face_uv (ptex_face_uv_to_grid_uv (1/3) (2/7)).1
        (ptex_face_uv_to_grid_uv (1/3) (2/7)).2 = (1/3, 2/7) :=
  (ptex_grid_uv_round_trip (1/3) (2/7) (by norm_num) (by norm_num) (by norm_num)
    (by norm_num)).1

/-- C5: `crease_to_sharpness` is monotonic on crease values in `[0,1]`; every
crease `c` with `0 ≤ c < 1` round-trips exactly through
`sharpness_to_crease ∘ crease_to_sharpness` (hence within floating
tolerance); crease 1 maps to the saturation sharpness 10, and the
infinitely-sharp saturation point maps back to a crease of exactly 1. -/
theorem crease_sharpness_round_trip :
    MonotoneOn crease_to_sharpness (Set.Icc (0 : ℝ) 1)
    ∧ (∀ c : ℝ, 0 ≤ c → c < 1 → sharpness_to_crease (crease_to_sharpness c) = c)
    ∧ crease_to_sharpness 1 = 10
    ∧ sharpness_to_crease 10 = 1 := by
  refine ⟨?_, ?_, ?_, ?_⟩
  · intro a ha b hb hab
    simp only [crease_to_sharpness]
    nlinarith [ha.1, hb.1]
  · intro c h0 h1
    simp only [sharpness_to_crease, crease_to_sharpness]
    rw [show c * c * 10 / 10 = c * c by ring, Real.sqrt_mul_self h0]
  · norm_num [crease_to_sharpness]
  · simp only [sharpness_to_crease]
    norm_num

/-- Witness for C5: monotonicity applied at `0 ≤ 1` in `[0,1]`, and the exact
round trip at crease `1/2`. -/
theorem crease_sharpness_round_trip_witness :
    crease_to_sharpness 0 ≤ crease_to_sharpness 1
    ∧ sharpness_to_crease (crease_to_sharpness (1 / 2)) = 1 / 2 :=
  ⟨crease_sharpness_round_trip.1 (by norm_num [Set.mem_Icc]) (by norm_num [Set.mem_Icc])
      (by norm_num),
    crease_sharpness_round_trip.2.1 (1 / 2) (by norm_num) (by norm_num)⟩

/-- C6: on a topology source that is non-manifold or unsupported by the
chosen scheme (its validity bit is false), `new_from_converter` and
`new_from_mesh` fail synchronously and return null (`none`): no descriptor is
created. -/
theorem new_from_invalid_topology_fails (settings : Settings)
    (converter : OpenSubdiv_Converter) (mesh : Mesh) (t0 t1 : ℝ)
    (hc : converter.valid_topology = false) (hm : mesh.valid_topology = false) :
    new_from_converter settings converter t0 t1 = none
    ∧ new_from_mesh settings mesh t0 t1 = none := by
  constructor
  · simp [new_from_converter, hc]
  · simp [new_from_mesh, new_from_converter, converter_from_mesh, hm]

/-- Witness for C6: a concrete invalid topology source (one quad flagged
non-manifold) makes both factories return `none`. -/
theorem new_from_invalid_topology_fails_witness :
    new_from_converter
        { is_simple := false, is_adaptive := false, level := 2, use_creases := false,
          vtx_boundary_interpolation := .SUBDIV_VTX_BOUNDARY_EDGE_ONLY,
          fvar_linear_interpolation := .SUBDIV_FVAR_LINEAR_INTERPOLATION_ALL }
        { faces := [4], valid_topology := false } 0 1 = none
    ∧ new_from_mesh
        { is_simple := false, is_adaptive := false, level := 2, use_creases := false,
          vtx_boundary_interpolation := .SUBDIV_VTX_BOUNDARY_EDGE_ONLY,
          fvar_linear_interpolation := .SUBDIV_FVAR_LINEAR_INTERPOLATION_ALL }
        { faces := [4], valid_topology := false } 0 1 = none :=
  new_from_invalid_topology_fails _ _ _ 0 1 rfl rfl

/-! Helper lemmas about the ptex-offset array. -/

lemma face_ptex_offset_from_length (acc : ℕ) (faces : List ℕ) :
    (face_ptex_offset_from acc faces).length = faces.length + 1 := by
  induction faces generalizing acc with
  | nil => rfl
  | cons n rest ih => simp [face_ptex_offset_from, ih]

lemma face_ptex_offset_from_getD (acc : ℕ) (faces : List ℕ) (i : ℕ)
    (h : i ≤ faces.length) :
    (face_ptex_offset_from acc faces).getD i 0 =
      acc + ((faces.take i).map num_ptex_faces_of_face).sum := by
  induction faces generalizing acc i with
  | nil =>
    have hi0 : i = 0 := by simpa using h
    subst hi0
    simp [face_ptex_offset_from]
  | cons n rest ih =>
    cases i with
    | zero => simp [face_ptex_offset_from]
    | succ k =>
      simp only [face_ptex_offset_from, List.getD_cons_succ, List.take_succ_cons,
        List.map_cons, List.sum_cons]
      rw [ih _ _ (by simpa using h)]
      omega

lemma sum_take_mono (l : List ℕ) (i j : ℕ) (h : i ≤ j) :
    (l.take i).sum ≤ (l.take j).sum := by
  have hj : j = i + (j - i) := by omega
  rw [hj, List.take_add, List.sum_append]
  exact Nat.le_add_right _ _

/-- C2: for every successfully built descriptor, the array returned by
`face_ptex_offset_get` has length `base face count + 1`, is monotonically
non-decreasing, its last element equals the total ptex-face count (the sum of
per-base-face counts: one for a quad, `N` for an `N`-gon), and for every base
face `i` the count of its ptex faces equals
`face_ptex_offset[i+1] − face_ptex_offset[i]`. -/
theorem face_ptex_offset_properties (settings : Settings) (mesh : Mesh) (t0 t1 : ℝ)
    (s : Subdiv) (hs : new_from_mesh settings mesh t0 t1 = some s) :
    ((face_ptex_offset_get s).1).length = s.topology_refiner.faces.length + 1
    ∧ (∀ i j, i ≤ j → j < ((face_ptex_offset_get s).1).length →
        ((face_ptex_offset_get s).1).getD i 0 ≤ ((face_ptex_offset_get s).1).getD j 0)
    ∧ ((face_ptex_offset_get s).1).getD s.topology_refiner.faces.length 0 =
        (s.topology_refiner.faces.map num_ptex_faces_of_face).sum
    ∧ (∀ i, i < s.topology_refiner.faces.length →
        ((face_ptex_offset_get s).1).getD (i + 1) 0 -
            ((face_ptex_offset_get s).1).getD i 0 =
          num_ptex_faces_of_face (s.topology_refiner.faces.getD i 0)) := by
  have hcache : s.cache_face_ptex_offset = none ∧
      (face_ptex_offset_get s).1 = face_ptex_offset_of_faces s.topology_refiner.faces := by
    simp only [new_from_mesh, new_from_converter, converter_from_mesh] at hs
    by_cases hv : mesh.valid_topology
    · simp only [hv, if_true] at hs
      obtain rfl := (Option.some.injEq _ _).mp hs
      exact ⟨rfl, rfl⟩
    · simp [hv] at hs
  rw [hcache.2]
  simp only [face_ptex_offset_of_faces]
  set faces := s.topology_refiner.faces with hfaces
  refine ⟨face_ptex_offset_from_length 0 faces, ?_, ?_, ?_⟩
  · intro i j hij hj
    rw [face_ptex_offset_from_length] at hj
    rw [face_ptex_offset_from_getD 0 faces i (by omega),
      face_ptex_offset_from_getD 0 faces j (by omega)]
    have := sum_take_mono (faces.map num_ptex_faces_of_face) i j hij
    simpa [List.map_take] using this
  · rw [face_ptex_offset_from_getD 0 faces faces.length le_rfl]
    simp
  · intro i hi
    have hlt : i < faces.length := hi
    rw [face_ptex_offset_from_getD 0 faces (i + 1) (by omega),
      face_ptex_offset_from_getD 0 faces i (by omega)]
    rw [List.take_succ, List.map_append, List.sum_append]
    have hm : faces[i]? = some (faces.getD i 0) := by
      rw [List.getElem?_eq_getElem hlt, List.getD_eq_getElem?_getD,
        List.getElem?_eq_getElem hlt, Option.getD_some]
    rw [hm]
    simp only [Option.toList_some, List.map_cons, List.map_nil, List.sum_cons, List.sum_nil]
    omega

/-- Witness for C2: the properties evaluated on the descriptor built from
`sampleMesh` (faces `[4, 3, 5]`). -/
theorem face_ptex_offset_properties_witness :
    ((face_ptex_offset_get builtSampleSubdiv).1).length =
        builtSampleSubdiv.topology_refiner.faces.length + 1
    ∧ ((face_ptex_offset_get builtSampleSubdiv).1).getD
          builtSampleSubdiv.topology_refiner.faces.length 0 =
        (builtSampleSubdiv.topology_refiner.faces.map num_ptex_faces_of_face).sum :=
  ⟨(face_ptex_offset_properties sampleSettings sampleMesh 0 1 builtSampleSubdiv rfl).1,
    (face_ptex_offset_properties sampleSettings sampleMesh 0 1 builtSampleSubdiv
      rfl).2.2.1⟩

/-- C1: `update_from_mesh` / `update_from_converter` with a null existing
descriptor behave exactly as `new_from_mesh` / `new_from_converter`; with a
non-null existing descriptor whose settings compare equal (per
`settings_equal`) and whose topology is unchanged, the existing descriptor is
returned with only its stats touched — the record update preserves settings,
refiner, evaluator, displacement and cache — and the touched stats agree with
the old ones on every phase other than `SUBDIV_STATS_TOPOLOGY_COMPARE`;
otherwise the existing refiner and evaluator are dropped and the result is a
rebuild by `new_from_converter`.  The mesh update path is the converter
update path on the mesh's topology view. -/
theorem update_from_reuse_or_rebuild (settings : Settings)
    (converter : OpenSubdiv_Converter) (mesh : Mesh) (s : Subdiv)
    (tc0 tc1 tn0 tn1 : ℝ) :
    (update_from_converter none settings converter tc0 tc1 tn0 tn1 =
        new_from_converter settings converter tn0 tn1
      ∧ update_from_mesh none settings mesh tc0 tc1 tn0 tn1 =
        new_from_mesh settings mesh tn0 tn1)
    ∧ (settings_equal s.settings settings = true →
        topology_matches s.topology_refiner converter = true →
        update_from_converter (some s) settings converter tc0 tc1 tn0 tn1 =
          some { s with stats := stats_end (stats_begin s.stats
            .SUBDIV_STATS_TOPOLOGY_COMPARE tc0) .SUBDIV_STATS_TOPOLOGY_COMPARE tc1 }
        ∧ ∀ v, v ≠ StatsValue.SUBDIV_STATS_TOPOLOGY_COMPARE →
            (stats_end (stats_begin s.stats .SUBDIV_STATS_TOPOLOGY_COMPARE tc0)
              .SUBDIV_STATS_TOPOLOGY_COMPARE tc1).getStat v = s.stats.getStat v)
    ∧ ((settings_equal s.settings settings = false ∨
          topology_matches s.topology_refiner converter = false) →
        update_from_converter (some s) settings converter tc0 tc1 tn0 tn1 =
          new_from_converter settings converter tn0 tn1)
    ∧ update_from_mesh (some s) settings mesh tc0 tc1 tn0 tn1 =
        update_from_converter (some s) settings (converter_from_mesh mesh)
          tc0 tc1 tn0 tn1 := by
  refine ⟨⟨rfl, rfl⟩, ?_, ?_, rfl⟩
  · intro h1 h2
    constructor
    · simp [update_from_converter, h1, h2]
    · intro v hv
      rw [getStat_stats_end_other _ _ _ _ hv, getStat_stats_begin]
  · intro h
    rcases h with h | h
    · simp [update_from_converter, h]
    · by_cases h1 : settings_equal s.settings settings = true
      · simp [update_from_converter, h1, h]
      · simp [update_from_converter, h1]

/-- Witness for C1: reusing `sampleSubdiv` (settings and topology unchanged)
returns it with only the topology-compare phase accumulating, and the
evaluator-create accumulator is untouched. -/
theorem update_from_reuse_or_rebuild_witness :
    update_from_converter (some sampleSubdiv) sampleSettings
        (converter_from_mesh sampleMesh) 2 5 0 1 =
      some { sampleSubdiv with stats := stats_end (stats_begin sampleSubdiv.stats
        .SUBDIV_STATS_TOPOLOGY_COMPARE 2) .SUBDIV_STATS_TOPOLOGY_COMPARE 5 }
    ∧ (stats_end (stats_begin sampleSubdiv.stats .SUBDIV_STATS_TOPOLOGY_COMPARE 2)
        .SUBDIV_STATS_TOPOLOGY_COMPARE 5).getStat .SUBDIV_STATS_EVALUATOR_CREATE =
      sampleSubdiv.stats.getStat .SUBDIV_STATS_EVALUATOR_CREATE :=
  ⟨((update_from_reuse_or_rebuild sampleSettings (converter_from_mesh sampleMesh)
      sampleMesh sampleSubdiv 2 5 0 1).2.1 (by decide) (by decide)).1,
    ((update_from_reuse_or_rebuild sampleSettings (converter_from_mesh sampleMesh)
      sampleMesh sampleSubdiv 2 5 0 1).2.1 (by decide) (by decide)).2
      .SUBDIV_STATS_EVALUATOR_CREATE (by decide)⟩

/-- Counterexample for C9: the corner is not an input of
`rotate_quad_to_corner` — per the declaration in `BKE_subdiv.hh` the
function takes only the quad coordinate and returns the corner index, which
it computes from the coordinate: at `(1/4, 1/4)` it returns corner 0 and at
`(3/4, 1/4)` it returns corner 1, so a caller cannot be "giving" it a
corner. -/
theorem rotate_quad_to_corner_corner_is_computed :
    (rotate_quad_to_corner (1/4) (1/4)).1 = 0
    ∧ (rotate_quad_to_corner (3/4) (1/4)).1 = 1
    ∧ (rotate_quad_to_corner (1/4) (1/4)).1 ≠ (rotate_quad_to_corner (3/4) (1/4)).1 := by
  refine ⟨?_, ?_, ?_⟩ <;> norm_num [rotate_quad_to_corner]

/-- C9 (amended): `rotate_quad_to_corner`, given a quad-global coordinate
`(quad_u, quad_v) ∈ [0,1]²`, determines the corner whose quadrant contains
the coordinate, returns that corner index (one of 0..3), and computes the
coordinate as seen from that corner's local frame — the output lies in
`[0,1]²` and applying the corner's inverse frame map recovers
`(quad_u, quad_v)`; it is defined only for quads. -/
theorem rotate_quad_to_corner_quadrant_frames (quad_u quad_v : ℚ)
    (hu0 : 0 ≤ quad_u) (hu1 : quad_u ≤ 1) (hv0 : 0 ≤ quad_v) (hv1 : quad_v ≤ 1) :
    (rotate_quad_to_corner quad_u quad_v).1 < 4
    ∧ 0 ≤ (rotate_quad_to_corner quad_u quad_v).2.1
    ∧ (rotate_quad_to_corner quad_u quad_v).2.1 ≤ 1
    ∧ 0 ≤ (rotate_quad_to_corner quad_u quad_v).2.2
    ∧ (rotate_quad_to_corner quad_u quad_v).2.2 ≤ 1
    ∧ rotate_corner_to_quad (rotate_quad_to_corner quad_u quad_v).1
        (rotate_quad_to_corner quad_u quad_v).2.1
        (rotate_quad_to_corner quad_u quad_v).2.2 = (quad_u, quad_v) := by
  by_cases h1 : quad_u ≤ 1/2 ∧ quad_v ≤ 1/2
  · obtain ⟨hu, hv⟩ := h1
    simp only [rotate_quad_to_corner, if_pos (And.intro hu hv)]
    refine ⟨by norm_num, by linarith, by linarith, by linarith, by linarith, ?_⟩
    norm_num [rotate_corner_to_quad]
  · by_cases h2 : 1/2 < quad_u ∧ quad_v ≤ 1/2
    · obtain ⟨hu, hv⟩ := h2
      simp only [rotate_quad_to_corner, if_neg h1, if_pos (And.intro hu hv)]
      refine ⟨by norm_num, by linarith, by linarith, by linarith, by linarith, ?_⟩
      norm_num [rotate_corner_to_quad]
    · by_cases h3 : 1/2 < quad_u ∧ 1/2 < quad_v
      · obtain ⟨hu, hv⟩ := h3
        simp only [rotate_quad_to_corner, if_neg h1, if_neg h2, if_pos (And.intro hu hv)]
        refine ⟨by norm_num, by linarith, by linarith, by linarith, by linarith, ?_⟩
        norm_num [rotate_corner_to_quad]
      · have hu : quad_u ≤ 1/2 := by
          by_contra hc
          push_neg at hc
          rcases le_or_lt quad_v (1/2) with hv | hv
          · exact h2 ⟨hc, hv⟩
          · exact h3 ⟨hc, hv⟩
        have hv : 1/2 < quad_v := by
          by_contra hc
          push_neg at hc
          exact h1 ⟨hu, hc⟩
        simp only [rotate_quad_to_corner, if_neg h1, if_neg h2, if_neg h3]
        refine ⟨by norm_num, by linarith, by linarith, by linarith, by linarith, ?_⟩
        norm_num [rotate_corner_to_quad]

/-- Witness for C9's amended theorem: at `(2/3, 1/5)` the returned corner is
in range and the corner-local coordinate maps back to `(2/3, 1/5)`. -/
theorem rotate_quad_to_corner_quadrant_frames_witness :
    (rotate_quad_to_corner (2/3) (1/5)).1 < 4
    ∧ rotate_corner_to_quad (rotate_quad_to_corner (2/3) (1/5)).1
        (rotate_quad_to_corner (2/3) (1/5)).2.1
        (rotate_quad_to_corner (2/3) (1/5)).2.2 = (2/3, 1/5) :=
  ⟨(rotate_quad_to_corner_quadrant_frames (2/3) (1/5) (by norm_num) (by norm_num)
      (by norm_num) (by norm_num)).1,
    (rotate_quad_to_corner_quadrant_frames (2/3) (1/5) (by norm_num) (by norm_num)
      (by norm_num) (by norm_num)).2.2.2.2.2⟩

end BKESubdiv
